import Mathlib

/-!
Verification of the flight-recommender pipeline (`flightrecommender.py`).

The development shallowly embeds the program: unix timestamps are `Nat`
(fetcher) or `Int` (flight records), Python floats are modelled as `ℚ`,
Python dictionaries as association lists or explicit lookup functions,
fallible Python code as `Except PyErr`, and the on-disk cache plus the
flight source as explicit state passed through the fetcher.
-/

/-! ## Segmented flight fetcher (`opensky_get_flights`, `opensky_get_flights_segment`) -/

/-- One flight record as returned by the flight-track source
(`estDepartureAirport`, `estArrivalAirport`, `callsign`, `icao24` may be
null; the two timestamps are always present). -/
structure Flight where
  icao24 : Option String
  callsign : Option String
  estDepartureAirport : Option String
  estArrivalAirport : Option String
  firstSeen : Int
  lastSeen : Int
deriving DecidableEq, Repr

/-- State threaded through the fetcher: the flight-segment cache namespace
(keyed by the segment's begin timestamp) and a counter of flight-source
calls issued. -/
structure FetchState where
  cache : Nat → Option (List Flight)
  calls : Nat

/-- Source: `cachable = (begin_unix % 3600) == 0 and (end_unix % 3600) == 0`. -/
def cachable (begin_unix end_unix : Nat) : Bool :=
  begin_unix % 3600 == 0 && end_unix % 3600 == 0

/-- Model of `opensky_get_flights_segment`: return the cached list on a cachable hit,
otherwise call the source (`src`), storing the result when cachable. -/
def opensky_get_flights_segment (src : Nat → Nat → List Flight)
    (begin_unix end_unix : Nat) (st : FetchState) : List Flight × FetchState :=
  if cachable begin_unix end_unix then
    match st.cache begin_unix with
    | some fs => (fs, st)
    | none =>
      let f := src begin_unix end_unix
      (f, ⟨fun k => if k = begin_unix then some f else st.cache k, st.calls + 1⟩)
  else
    (src begin_unix end_unix, ⟨st.cache, st.calls + 1⟩)

/-- The `while (end_unix - steps[-1]) > 3600` loop of `opensky_get_flights`:
advance by 3600 s, round down to a whole hour, stop when the remaining gap
is at most 3600 s, then append `end_unix`. -/
def buildSteps (end_unix last : Nat) : List Nat :=
  if end_unix - last > 3600 then
    (last + 3600 - (last + 3600) % 3600) ::
      buildSteps end_unix (last + 3600 - (last + 3600) % 3600)
  else [end_unix]
termination_by end_unix - last
decreasing_by
  have := Nat.mod_lt (last + 3600) (show 0 < 3600 by norm_num)
  omega

/-- The full boundary list `steps` built by `opensky_get_flights`. -/
def openskySteps (begin_unix end_unix : Nat) : List Nat :=
  begin_unix :: buildSteps end_unix begin_unix

/-- Source: `zip(steps, steps[1:])` — the sub-intervals requested by the fetcher. -/
def openskySegments (begin_unix end_unix : Nat) : List (Nat × Nat) :=
  (openskySteps begin_unix end_unix).zip (openskySteps begin_unix end_unix).tail

/-- The download loop of `opensky_get_flights`: fetch every sub-interval in
order and concatenate the results. -/
def runSegments (src : Nat → Nat → List Flight) :
    List (Nat × Nat) → FetchState → List Flight × FetchState
  | [], st => ([], st)
  | seg :: rest, st =>
    let r := opensky_get_flights_segment src seg.1 seg.2 st
    let r2 := runSegments src rest r.2
    (r.1 ++ r2.1, r2.2)

/-- Model of `opensky_get_flights`: split `[begin, end)` into sub-intervals and fetch
each through the segment cache. -/
def opensky_get_flights (src : Nat → Nat → List Flight)
    (begin_unix end_unix : Nat) (st : FetchState) : List Flight × FetchState :=
  runSegments src (openskySegments begin_unix end_unix) st

lemma buildSteps_ne_nil (e l : Nat) : buildSteps e l ≠ [] := by
  rw [buildSteps]
  split <;> simp

lemma buildSteps_mem (e : Nat) : ∀ n l, e - l ≤ n → ∀ x ∈ buildSteps e l,
    x = e ∨ x % 3600 = 0 := by
  intro n
  induction n with
  | zero =>
    intro l hl x hx
    rw [buildSteps] at hx
    rw [if_neg (by omega)] at hx
    simp at hx
    exact Or.inl hx
  | succ n ih =>
    intro l hl x hx
    rw [buildSteps] at hx
    by_cases hc : e - l > 3600
    · rw [if_pos hc] at hx
      simp only [List.mem_cons] at hx
      rcases hx with hx | hx
      · right
        omega
      · have hlt : l < l + 3600 - (l + 3600) % 3600 := by
          have := Nat.mod_lt (l + 3600) (show 0 < 3600 by norm_num)
          omega
        exact ih _ (by omega) x hx
    · rw [if_neg hc] at hx
      simp at hx
      exact Or.inl hx

lemma openskySteps_aligned (b e : Nat) (hb : b % 3600 = 0) (he : e % 3600 = 0) :
    ∀ x ∈ openskySteps b e, x % 3600 = 0 := by
  intro x hx
  rcases List.mem_cons.mp hx with h | h
  · exact h ▸ hb
  · rcases buildSteps_mem e (e - b) b le_rfl x h with h1 | h1
    · exact h1 ▸ he
    · exact h1

/-- Sub-interval boundaries are strictly increasing with gaps of at most
3600 seconds (given a nonempty interval). -/
lemma segments_chain (e : Nat) : ∀ n l, e - l ≤ n → l < e →
    ∀ p ∈ ((l :: buildSteps e l).zip (buildSteps e l)),
      p.1 < p.2 ∧ p.2 ≤ p.1 + 3600 := by
  intro n
  induction n with
  | zero => intro l hl hlt; omega
  | succ n ih =>
    intro l hl hlt p hp
    rw [buildSteps] at hp
    by_cases hc : e - l > 3600
    · rw [if_pos hc] at hp
      have hmod := Nat.mod_lt (l + 3600) (show 0 < 3600 by norm_num)
      rw [List.zip_cons_cons, List.mem_cons] at hp
      rcases hp with hp | hp
      · subst hp
        dsimp only
        omega
      · exact ih (l + 3600 - (l + 3600) % 3600) (by omega) (by omega) p hp
    · rw [if_neg hc] at hp
      simp only [List.zip_cons_cons, List.zip_nil_right, List.mem_cons,
        List.not_mem_nil, or_false] at hp
      subst hp
      dsimp only
      omega

lemma openskySegments_chain (b e : Nat) (h : b < e) :
    ∀ p ∈ openskySegments b e, p.1 < p.2 ∧ p.2 ≤ p.1 + 3600 := by
  intro p hp
  exact segments_chain e (e - b) b le_rfl h p hp

lemma segment_cache_mono (src : Nat → Nat → List Flight) (b e : Nat)
    (st : FetchState) (k : Nat) (v : List Flight) (h : st.cache k = some v) :
    ((opensky_get_flights_segment src b e st).2).cache k = some v := by
  unfold opensky_get_flights_segment
  split
  · cases hcb : st.cache b with
    | some fs => simp only [hcb]; exact h
    | none =>
      simp only [hcb]
      by_cases hkb : k = b
      · rw [hkb] at h; rw [h] at hcb; exact absurd hcb (by simp)
      · simp only [if_neg hkb]; exact h
  · exact h

lemma runSegments_cache_mono (src : Nat → Nat → List Flight) :
    ∀ (segs : List (Nat × Nat)) (st : FetchState) (k : Nat) (v : List Flight),
      st.cache k = some v → ((runSegments src segs st).2).cache k = some v := by
  intro segs
  induction segs with
  | nil => intro st k v h; exact h
  | cons seg rest ih =>
    intro st k v h
    simp only [runSegments]
    exact ih _ k v (segment_cache_mono src seg.1 seg.2 st k v h)

lemma segment_sets_key (src : Nat → Nat → List Flight) (b e : Nat)
    (st : FetchState) (hc : cachable b e = true) :
    ∃ v, ((opensky_get_flights_segment src b e st).2).cache b = some v := by
  unfold opensky_get_flights_segment
  rw [if_pos hc]
  cases hcb : st.cache b with
  | some fs => exact ⟨fs, hcb⟩
  | none => exact ⟨src b e, by simp⟩

lemma runSegments_sets_keys (src : Nat → Nat → List Flight) :
    ∀ (segs : List (Nat × Nat)) (st : FetchState),
      (∀ p ∈ segs, cachable p.1 p.2 = true) →
      ∀ p ∈ segs, ∃ v, ((runSegments src segs st).2).cache p.1 = some v := by
  intro segs
  induction segs with
  | nil => intro st hall p hp; exact absurd hp (List.not_mem_nil p)
  | cons seg rest ih =>
    intro st hall p hp
    simp only [runSegments]
    rcases List.mem_cons.mp hp with hp | hp
    · subst hp
      obtain ⟨v, hv⟩ := segment_sets_key src p.1 p.2 st (hall p (List.mem_cons_self p rest))
      exact ⟨v, runSegments_cache_mono src rest _ p.1 v hv⟩
    · exact ih _ (fun q hq => hall q (List.mem_cons_of_mem seg hq)) p hp

lemma segment_noop (src : Nat → Nat → List Flight) (b e : Nat)
    (st : FetchState) (v : List Flight) (hc : cachable b e = true)
    (hv : st.cache b = some v) :
    opensky_get_flights_segment src b e st = (v, st) := by
  unfold opensky_get_flights_segment
  rw [if_pos hc, hv]

lemma runSegments_noop (src : Nat → Nat → List Flight) :
    ∀ (segs : List (Nat × Nat)) (st : FetchState),
      (∀ p ∈ segs, cachable p.1 p.2 = true ∧ ∃ v, st.cache p.1 = some v) →
      (runSegments src segs st).2 = st := by
  intro segs
  induction segs with
  | nil => intro st h; rfl
  | cons seg rest ih =>
    intro st h
    obtain ⟨hc, v, hv⟩ := h seg (List.mem_cons_self seg rest)
    simp only [runSegments, segment_noop src seg.1 seg.2 st v hc hv]
    exact ih st (fun q hq => h q (List.mem_cons_of_mem seg hq))

lemma openskySegments_cachable (b e : Nat) (hb : b % 3600 = 0)
    (he : e % 3600 = 0) : ∀ p ∈ openskySegments b e, cachable p.1 p.2 = true := by
  intro p hp
  obtain ⟨h1, h2⟩ := List.of_mem_zip (a := p.1) (b := p.2) (by simpa using hp)
  have h2m : p.2 ∈ openskySteps b e := List.tail_subset _ h2
  have a1 := openskySteps_aligned b e hb he p.1 h1
  have a2 := openskySteps_aligned b e hb he p.2 h2m
  simp [cachable, a1, a2]

lemma openskySegments_range (N : Nat) : ∀ b : Nat, b % 3600 = 0 → 1 ≤ N →
    openskySegments b (b + 3600 * N) =
      (List.range N).map (fun i => (b + 3600 * i, b + 3600 * (i + 1))) := by
  induction N with
  | zero => intro b hb hN; omega
  | succ N ih =>
    intro b hb hN
    by_cases hN0 : N = 0
    · subst hN0
      simp only [openskySegments, openskySteps]
      rw [buildSteps, if_neg (by omega)]
      simp only [List.range_succ, List.range_zero, List.nil_append,
        List.map_cons, List.map_nil, List.tail_cons, List.zip_cons_cons,
        List.zip_nil_right]
      refine congrArg (fun q => [q]) (Prod.ext ?_ ?_) <;> rfl
    · have hN2 : 1 ≤ N := Nat.one_le_iff_ne_zero.mpr hN0
      have hbs : buildSteps (b + 3600 * (N + 1)) b =
          (b + 3600) :: buildSteps ((b + 3600) + 3600 * N) (b + 3600) := by
        rw [buildSteps, if_pos (by omega)]
        have hnx : b + 3600 - (b + 3600) % 3600 = b + 3600 := by omega
        have he : b + 3600 * (N + 1) = (b + 3600) + 3600 * N := by ring
        rw [hnx, he]
      have hsegs : openskySegments b (b + 3600 * (N + 1)) =
          (b, b + 3600) :: openskySegments (b + 3600) ((b + 3600) + 3600 * N) := by
        simp only [openskySegments, openskySteps, hbs, List.tail_cons,
          List.zip_cons_cons]
      rw [hsegs, ih (b + 3600) (by omega) hN2]
      rw [List.range_succ_eq_map]
      simp only [List.map_cons, List.map_map]
      refine congrArg₂ List.cons ?_ ?_
      · refine Prod.ext ?_ ?_ <;> rfl
      · refine List.map_congr_left ?_
        intro i hi
        refine Prod.ext ?_ ?_ <;> (simp only [Function.comp_apply]; omega)

/-- C4: per sub-interval `[s, e)`, cachability is exactly hour-alignment of
both endpoints; a cachable interval whose begin key is cached is answered
from the cache with the state (hence the call counter) unchanged; otherwise
the source is called once and, when cachable, the result (whatever it is,
including the empty list) is stored under the begin key; and a second run of
the fetcher over the same hour-aligned interval issues zero source calls. -/
theorem c4_cache_discipline (src : Nat → Nat → List Flight) (b e : Nat)
    (st : FetchState) :
    (cachable b e = true ↔ (b % 3600 = 0 ∧ e % 3600 = 0))
    ∧ (∀ fs, cachable b e = true → st.cache b = some fs →
        opensky_get_flights_segment src b e st = (fs, st))
    ∧ (cachable b e = true → st.cache b = none →
        (opensky_get_flights_segment src b e st).1 = src b e ∧
        (opensky_get_flights_segment src b e st).2.calls = st.calls + 1 ∧
        (opensky_get_flights_segment src b e st).2.cache b = some (src b e))
    ∧ (cachable b e = false →
        (opensky_get_flights_segment src b e st).1 = src b e ∧
        (opensky_get_flights_segment src b e st).2.calls = st.calls + 1 ∧
        (opensky_get_flights_segment src b e st).2.cache = st.cache)
    ∧ (b % 3600 = 0 → e % 3600 = 0 →
        (opensky_get_flights src b e
            ((opensky_get_flights src b e st).2)).2.calls
          = ((opensky_get_flights src b e st).2).calls) := by
  refine ⟨?_, ?_, ?_, ?_, ?_⟩
  · simp [cachable]
  · intro fs hc hfs
    exact segment_noop src b e st fs hc hfs
  · intro hc hnone
    unfold opensky_get_flights_segment
    rw [if_pos hc, hnone]
    exact ⟨rfl, rfl, by simp⟩
  · intro hc
    unfold opensky_get_flights_segment
    rw [if_neg (by simp [hc])]
    exact ⟨rfl, rfl, rfl⟩
  · intro hb he
    have hall := openskySegments_cachable b e hb he
    have hkeys := runSegments_sets_keys src (openskySegments b e) st hall
    exact congrArg FetchState.calls
      (runSegments_noop src (openskySegments b e) _
        (fun p hp => ⟨hall p hp, hkeys p hp⟩))

def srcW : Nat → Nat → List Flight := fun _ _ => []

def stW : FetchState := ⟨fun _ => none, 0⟩

theorem c4_cache_discipline_witness :
    (0 : Nat) % 3600 = 0 ∧ (7200 : Nat) % 3600 = 0 ∧
    (opensky_get_flights srcW 0 7200
        ((opensky_get_flights srcW 0 7200 stW).2)).2.calls
      = ((opensky_get_flights srcW 0 7200 stW).2).calls :=
  ⟨rfl, rfl, (c4_cache_discipline srcW 0 7200 stW).2.2.2.2 rfl rfl⟩

lemma buildSteps_dropLast_aligned (e : Nat) : ∀ n l, e - l ≤ n →
    ∀ x ∈ (buildSteps e l).dropLast, x % 3600 = 0 := by
  intro n
  induction n with
  | zero =>
    intro l hl x hx
    rw [buildSteps, if_neg (by omega)] at hx
    simp at hx
  | succ n ih =>
    intro l hl x hx
    rw [buildSteps] at hx
    by_cases hc : e - l > 3600
    · rw [if_pos hc] at hx
      have hne := buildSteps_ne_nil e (l + 3600 - (l + 3600) % 3600)
      rw [List.dropLast_cons_of_ne_nil hne] at hx
      rcases List.mem_cons.mp hx with hx | hx
      · omega
      · have := Nat.mod_lt (l + 3600) (show 0 < 3600 by norm_num)
        exact ih _ (by omega) x hx
    · rw [if_neg hc] at hx
      simp at hx

/-- C5: for `begin`/`end` both hour-aligned and `N ≥ 1` hours apart, the
fetcher requests exactly the `N` contiguous, non-overlapping sub-intervals
`[begin + 3600*i, begin + 3600*(i+1))` for `i < N`, in chronological order;
and for arbitrary `begin < end`, every boundary other than the first and the
last is an exact multiple of 3600. -/
theorem c5_segmentation (b N : Nat) (hb : b % 3600 = 0) (hN : 1 ≤ N) :
    openskySegments b (b + 3600 * N) =
      (List.range N).map (fun i => (b + 3600 * i, b + 3600 * (i + 1)))
    ∧ ∀ b2 e2 : Nat, b2 < e2 →
        ∀ x ∈ ((openskySteps b2 e2).drop 1).dropLast, x % 3600 = 0 := by
  refine ⟨openskySegments_range N b hb hN, ?_⟩
  intro b2 e2 _ x hx
  simp only [openskySteps, List.drop_succ_cons, List.drop_zero] at hx
  have := buildSteps_dropLast_aligned e2 (e2 - b2) b2 le_rfl x hx
  exact this

theorem c5_segmentation_witness :
    7200 % 3600 = 0 ∧ 1 ≤ 2 ∧
    openskySegments 7200 (7200 + 3600 * 2) =
      [(7200, 10800), (10800, 14400)] := by
  refine ⟨rfl, by norm_num, ?_⟩
  rw [(c5_segmentation 7200 2 rfl (by norm_num)).1]
  decide

/-- C10: under `begin < end`, any generated sub-interval whose two endpoints
are both exact multiples of 3600 (i.e. any cachable sub-interval) has length
exactly 3600 seconds, so its begin timestamp determines the whole interval. -/
theorem c10_cachable_length (b e : Nat) (h : b < e) :
    ∀ p ∈ openskySegments b e, p.1 % 3600 = 0 → p.2 % 3600 = 0 →
      p.2 = p.1 + 3600 := by
  intro p hp h1 h2
  have := openskySegments_chain b e h p hp
  omega

theorem c10_cachable_length_witness :
    0 < 7200 ∧ ((0, 3600) ∈ openskySegments 0 7200) ∧
    0 % 3600 = 0 ∧ 3600 % 3600 = 0 ∧
    ((0 : Nat), (3600 : Nat)).2 = ((0 : Nat), (3600 : Nat)).1 + 3600 := by
  have hmem : ((0 : Nat), (3600 : Nat)) ∈ openskySegments 0 7200 := by
    simp [openskySegments, openskySteps, buildSteps]
  exact ⟨by norm_num, hmem, rfl, rfl,
    c10_cachable_length 0 7200 (by norm_num) (0, 3600) hmem rfl rfl⟩

/-! ## Python value model for metadata and weather responses

`request_json` / `request_xml` return `[]` on a 404 and the parsed document
on a 200, so resolver results are arbitrary Python values: strings, lists,
or (ordered) dictionaries. Subscripting a non-dictionary with a string key
raises `TypeError`; a missing dictionary key raises `KeyError`; calling a
string method on a non-string raises `AttributeError`. -/

inductive PyErr where
  | keyError
  | typeError
  | attributeError
  | runtimeError
deriving DecidableEq, Repr

inductive PyVal where
  | pyStr (s : String)
  | pyList (elems : List PyVal)
  | pyDict (entries : List (String × PyVal))
deriving Repr

/-- Python subscripting `v[k]` with a string key `k`. -/
def pyIndex (v : PyVal) (k : String) : Except PyErr PyVal :=
  match v with
  | .pyDict entries =>
    match entries.lookup k with
    | some x => .ok x
    | none => .error .keyError
  | _ => .error .typeError

/-- Python `k == v` for a string `k` against an arbitrary value. -/
def pyStrEqVal (k : String) (v : PyVal) : Bool :=
  match v with
  | .pyStr s => k == s
  | _ => false

/-- Contiguous-substring test on character lists (Python `in` on `str`,
`re.search` of a literal pattern). -/
def hasSubstring (pat : List Char) : List Char → Bool
  | [] => pat.isPrefixOf []
  | c :: rest => pat.isPrefixOf (c :: rest) || hasSubstring pat rest

/-- Python membership `k in v` for a string `k`: key lookup on a dictionary,
element equality on a list, substring test on a string. -/
def pyContains (v : PyVal) (k : String) : Bool :=
  match v with
  | .pyDict entries => entries.any (fun p => p.1 == k)
  | .pyList elems => elems.any (pyStrEqVal k)
  | .pyStr s => hasSubstring k.data s.data

/-- Model of `request_xml` after the 503 retry loop settles on a final status:
404 yields the empty list, 200 the parsed document, anything else raises
`RuntimeError`. (`request_json` behaves identically.) -/
def request_xml (status : Nat) (parsed : PyVal) : Except PyErr PyVal :=
  if status = 404 then .ok (.pyList [])
  else if status = 200 then .ok parsed
  else .error .runtimeError

/-- Model of `aviationweather_get_metar` applied to the value `request_xml` returned:
`metar_xml['response']['data']['METAR']['raw_text']` with only `KeyError`
recovered to the empty string. -/
def aviationweather_get_metar (resp : PyVal) : Except PyErr PyVal :=
  match (pyIndex resp "response" >>= fun a => pyIndex a "data" >>= fun b =>
      pyIndex b "METAR" >>= fun c => pyIndex c "raw_text") with
  | .ok v => .ok v
  | .error .keyError => .ok (.pyStr "")
  | .error e => .error e

/-- C2: the weather resolver substitutes the empty string when the parsed
response is a dictionary missing the expected path (`KeyError` recovered),
but a not-found response — `request_xml` returns `[]` on a 404 — makes
`metar_xml['response']` raise an uncaught `TypeError`, aborting the run
instead of yielding the empty string as the claim states. -/
theorem c2_weather_not_found_aborts :
    request_xml 404 (.pyDict []) = .ok (.pyList [])
    ∧ aviationweather_get_metar (.pyList []) = .error .typeError
    ∧ aviationweather_get_metar (.pyDict []) = .ok (.pyStr "")
    ∧ aviationweather_get_metar
        (.pyDict [("response", .pyDict [("data", .pyDict [])])])
      = .ok (.pyStr "") :=
  ⟨rfl, rfl, rfl, rfl⟩

/-! ## Weather report feature detectors (the `score_by_weather` regexes) -/

/-- Numeric value of a digit run. -/
def digitsVal (l : List Char) : Nat :=
  l.foldl (fun n c => 10 * n + (c.toNat - 48)) 0

/-- Anchored match of `' [0-9]{3}(?P<wind>[0-9]{2})G(?P<gust>[0-9]+)KT '` at
the head of the list, returning (wind, gust). The greedy digit run must be
followed by `KT` and a space: giving digits back cannot rescue a failed
match, since the next character would then be a digit rather than `K`. -/
def matchGustAt (l : List Char) : Option (Nat × Nat) :=
  match l with
  | ' ' :: a :: b :: c :: d :: e :: 'G' :: rest =>
    if a.isDigit && b.isDigit && c.isDigit && d.isDigit && e.isDigit then
      match rest.takeWhile Char.isDigit, rest.dropWhile Char.isDigit with
      | [], _ => none
      | gd, 'K' :: 'T' :: ' ' :: _ => some (digitsVal [d, e], digitsVal gd)
      | _, _ => none
    else none
  | _ => none

/-- Source: `re.search` for the gust wind group — leftmost anchored match. -/
def searchGust : List Char → Option (Nat × Nat)
  | [] => none
  | c :: rest =>
    match matchGustAt (c :: rest) with
    | some r => some r
    | none => searchGust rest

/-- Source: `re.search(r' (?P<vis>[0-9]{4}) ', m)` — leftmost standalone 4-digit
group, returning its value. -/
def searchVis : List Char → Option Nat
  | ' ' :: a :: b :: c :: d :: ' ' :: rest =>
    if a.isDigit && b.isDigit && c.isDigit && d.isDigit then
      some (digitsVal [a, b, c, d])
    else searchVis (a :: b :: c :: d :: ' ' :: rest)
  | _ :: rest => searchVis rest
  | [] => none

/-- Anchored match of `' R[0-9]+[LCR]*/P(?P<rvr>[0-9]+)'`: maximal digit and
`[LCR]` runs are forced, since a char given back could not match what
follows. -/
def matchRvrAt : List Char → Bool
  | ' ' :: 'R' :: rest =>
    match rest.takeWhile Char.isDigit,
        (rest.dropWhile Char.isDigit).dropWhile
          (fun c => c == 'L' || c == 'C' || c == 'R') with
    | [], _ => false
    | _ :: _, '/' :: 'P' :: d :: _ => d.isDigit
    | _, _ => false
  | _ => false

def searchRvr : List Char → Bool
  | [] => false
  | c :: rest => matchRvrAt (c :: rest) || searchRvr rest

/-- Source: `re.finditer(r' [A-Z]{3}(?P<ceil>[0-9]{3}) ', m)` — all non-overlapping
matches left to right (each match consumes its trailing space), returning
the numeric height values. -/
def ceilScan : List Char → List Nat
  | ' ' :: a :: b :: c :: d :: e :: f :: ' ' :: rest =>
    if a.isUpper && b.isUpper && c.isUpper && d.isDigit && e.isDigit
        && f.isDigit then
      digitsVal [d, e, f] :: ceilScan rest
    else ceilScan (a :: b :: c :: d :: e :: f :: ' ' :: rest)
  | _ :: rest => ceilScan rest
  | [] => []

/-- Pattern `(?:[A-Z]{2})* '` — an even run of uppercase letters followed by a
space. -/
def evenUpperThenSpace : List Char → Bool
  | ' ' :: _ => true
  | a :: b :: rest => a.isUpper && b.isUpper && evenUpperThenSpace rest
  | _ => false

/-- Pattern `(?:[A-Z]{2})*XY(?:[A-Z]{2})* '` for a phenomenon code `XY` (`RA`, `SN`,
`TS`): either the code occurs here, or an uppercase pair is consumed —
exactly the backtracking alternatives of the regex. -/
def matchPhenomAfterSigns (x y : Char) : List Char → Bool
  | a :: b :: rest =>
    (a == x && b == y && evenUpperThenSpace rest) ||
    (a.isUpper && b.isUpper && matchPhenomAfterSigns x y rest)
  | _ => false

/-- Source: `re.search(r' [+-]*(?:[A-Z]{2})*XY(?:[A-Z]{2})* ', m)` — the `[+-]*` run
must be consumed whole, since a sign given back could not match what
follows. -/
def searchPhenom (x y : Char) : List Char → Bool
  | [] => false
  | c :: rest =>
    (c == ' ' && matchPhenomAfterSigns x y
      (rest.dropWhile (fun d => d == '+' || d == '-'))) ||
    searchPhenom x y rest

/-- The `rank.weather` configuration: one optional magnitude per detector. -/
structure WeatherConf where
  gust_per_kt : Option ℚ
  vis : Option ℚ
  rvr : Option ℚ
  ceil : Option ℚ
  rain : Option ℚ
  snow : Option ℚ
  tcu : Option ℚ
  thunder : Option ℚ
deriving DecidableEq, Repr

/-- Gust detector contribution: `magnitude * (gust - wind)`. -/
def gustDelta (conf : Option ℚ) (m : List Char) : ℚ :=
  match conf with
  | none => 0
  | some mag =>
    match searchGust m with
    | none => 0
    | some (w, g) => mag * (((g : ℤ) - (w : ℤ) : ℤ) : ℚ)

def visDelta (conf : Option ℚ) (m : List Char) : ℚ :=
  match conf with
  | none => 0
  | some mag =>
    match searchVis m with
    | some v => if v < 9999 then mag else 0
    | none => 0

def rvrDelta (conf : Option ℚ) (m : List Char) : ℚ :=
  match conf with
  | none => 0
  | some mag => if searchRvr m then mag else 0

def ceilDelta (conf : Option ℚ) (m : List Char) : ℚ :=
  match conf with
  | none => 0
  | some mag => mag * (((ceilScan m).filter (fun h => h < 2)).length : ℚ)

def phenomDelta (x y : Char) (conf : Option ℚ) (m : List Char) : ℚ :=
  match conf with
  | none => 0
  | some mag => if searchPhenom x y m then mag else 0

def tcuDelta (conf : Option ℚ) (m : List Char) : ℚ :=
  match conf with
  | none => 0
  | some mag => if hasSubstring "TCU ".data m then mag else 0

def anyDetectorEnabled (ws : WeatherConf) : Bool :=
  ws.gust_per_kt.isSome || ws.vis.isSome || ws.rvr.isSome || ws.ceil.isSome ||
  ws.rain.isSome || ws.snow.isSome || ws.tcu.isSome || ws.thunder.isSome

/-- One endpoint's total weather contribution, in the detector order of
`score_by_weather` (gust, vis, rvr, ceil, rain, snow, tcu, thunder). A
non-string report value makes the first enabled detector's `re.search`
raise `TypeError`. -/
def weather_delta (ws : WeatherConf) (m : PyVal) : Except PyErr ℚ :=
  match m with
  | .pyStr s =>
    .ok (gustDelta ws.gust_per_kt s.data + visDelta ws.vis s.data +
      rvrDelta ws.rvr s.data + ceilDelta ws.ceil s.data +
      phenomDelta 'R' 'A' ws.rain s.data + phenomDelta 'S' 'N' ws.snow s.data +
      tcuDelta ws.tcu s.data + phenomDelta 'T' 'S' ws.thunder s.data)
  | _ => if anyDetectorEnabled ws then .error .typeError else .ok 0

/-! ## Flight records with scores, filters and the scoring engine -/

/-- A flight record after `f['score'] = 0.0`: the raw record plus its
mutable score. -/
structure SFlight extends Flight where
  score : ℚ
deriving DecidableEq, Repr

/-- Sequential processing of a flight list where handling one record can
raise: the Python `for` loop, an uncaught exception aborting the run. -/
def forEachE (g : α → Except PyErr β) : List α → Except PyErr (List β)
  | [] => .ok []
  | x :: xs =>
    match g x with
    | .error e => .error e
    | .ok y =>
      match forEachE g xs with
      | .error e => .error e
      | .ok ys => .ok (y :: ys)

/-- Model of `filter_by_region`: keep flights whose departure and arrival codes are
both non-null and each start with some configured region prefix. -/
def filter_by_region (flights : List Flight) (icao_regions : List String) :
    List Flight :=
  flights.filter fun f =>
    (icao_regions.any fun r =>
      match f.estDepartureAirport with
      | some d => d.startsWith r
      | none => false) &&
    (icao_regions.any fun r =>
      match f.estArrivalAirport with
      | some a => a.startsWith r
      | none => false)

/-- Model of `filter_by_operator`: keep flights with a non-null callsign starting
with some configured operator prefix. -/
def filter_by_operator (flights : List Flight) (operators : List String) :
    List Flight :=
  flights.filter fun f =>
    match f.callsign with
    | some c => operators.any fun op => c.startsWith op
    | none => false

/-- The `aircraft` dictionary built by `get_aircraft_from_flights`: one
entry per distinct non-null `icao24` occurring in the list, holding
whatever the (memoized) metadata source returned — `[]` on not-found. -/
def get_aircraft_from_flights (flights : List Flight)
    (acSrc : String → PyVal) : String → Option PyVal :=
  fun s =>
    if flights.any (fun f => f.icao24 == some s) then some (acSrc s) else none

/-- Model of `filter_by_aircraft_type`: keep flights whose `icao24` is a key of the
`aircraft` dict whose value contains `'typecode'` with a value in the
allowed list. Note `'typecode' in ac and ac['typecode'] in allowed_types`
short-circuits, and subscripting a non-dict value raises. -/
def filter_by_aircraft_type (flights : List Flight)
    (aircraft : String → Option PyVal) (allowed_types : List String) :
    Except PyErr (List Flight) :=
  match flights with
  | [] => .ok []
  | f :: rest =>
    match f.icao24 with
    | none => filter_by_aircraft_type rest aircraft allowed_types
    | some s =>
      match aircraft s with
      | none => filter_by_aircraft_type rest aircraft allowed_types
      | some ac =>
        if pyContains ac "typecode" then
          match pyIndex ac "typecode" with
          | .error e => .error e
          | .ok tv =>
            match filter_by_aircraft_type rest aircraft allowed_types with
            | .error e => .error e
            | .ok kept =>
              .ok (if allowed_types.any (fun t => pyStrEqVal t tv)
                then f :: kept else kept)
        else filter_by_aircraft_type rest aircraft allowed_types

/-- Model of `score_by_flight_time`: `flight_time = lastSeen - firstSeen` seconds;
subtract `penalty_per_min` per minute below `min_time` and above
`max_time` (two independent conditions, as in the source). -/
def score_by_flight_time (flights : List SFlight)
    (min_time max_time penalty_per_min : ℚ) : List SFlight :=
  flights.map fun f =>
    let ft : ℤ := f.lastSeen - f.firstSeen
    let s1 : ℚ :=
      if (ft : ℚ) < min_time * 60 then
        f.score - penalty_per_min * ((min_time * 60 - (ft : ℚ)) / 60)
      else f.score
    let s2 : ℚ :=
      if (ft : ℚ) > max_time * 60 then
        s1 - penalty_per_min * (((ft : ℚ) - max_time * 60) / 60)
      else s1
    { f with score := s2 }

/-- Source: `re.sub(r'[^A-Z0-9]', '', reg.upper())`. -/
def normalizeReg (r : String) : String :=
  String.mk ((r.data.map Char.toUpper).filter fun c => c.isUpper || c.isDigit)

/-- Model of `score_by_registration`: skip flights whose `icao24` is null or not a
key of the aircraft dict; otherwise read `ac['registration']` (raising on
the `[]` not-found sentinel), normalize, and add `score_match` on a match. -/
def score_by_registration (flights : List SFlight)
    (aircraft : String → Option PyVal) (registrations : List String)
    (score_match : ℚ) : Except PyErr (List SFlight) :=
  forEachE
    (fun f =>
      match f.icao24 with
      | none => .ok f
      | some s =>
        match aircraft s with
        | none => .ok f
        | some ac =>
          match pyIndex ac "registration" with
          | .error e => .error e
          | .ok (.pyStr r) =>
            .ok (if registrations.contains (normalizeReg r)
              then { f with score := f.score + score_match } else f)
          | .ok _ => .error .attributeError)
    flights

/-- The inner loop of `score_by_airport` over the configured
(prefix, delta) pairs for one flight: `f['estDepartureAirport'].startswith`
raises `AttributeError` on a null code. -/
def airportFold (dep arr : Option String) :
    List (String × ℚ) → ℚ → Except PyErr ℚ
  | [], s => .ok s
  | (ap, delta) :: rest, s =>
    match dep with
    | none => .error .attributeError
    | some d =>
      let s1 := if d.startsWith ap then s + delta else s
      match arr with
      | none => .error .attributeError
      | some a =>
        airportFold dep arr rest (if a.startsWith ap then s1 + delta else s1)

/-- Model of `score_by_airport`. -/
def score_by_airport (flights : List SFlight) (airports : List (String × ℚ)) :
    Except PyErr (List SFlight) :=
  forEachE
    (fun f =>
      match airportFold f.estDepartureAirport f.estArrivalAirport airports
          f.score with
      | .error e => .error e
      | .ok s => .ok { f with score := s })
    flights

/-- Model of `score_by_weather`: look both endpoint codes up in the metar dict
(an absent key raises `KeyError`) and add both endpoints' detector
contributions. -/
def score_by_weather (flights : List SFlight)
    (metar : Option String → Option PyVal) (ws : WeatherConf) :
    Except PyErr (List SFlight) :=
  forEachE
    (fun f =>
      match metar f.estDepartureAirport with
      | none => .error .keyError
      | some mdep =>
        match metar f.estArrivalAirport with
        | none => .error .keyError
        | some marr =>
          match weather_delta ws mdep with
          | .error e => .error e
          | .ok d1 =>
            match weather_delta ws marr with
            | .error e => .error e
            | .ok d2 => .ok { f with score := f.score + d1 + d2 })
    flights

/-! ## Ranker and renderer -/

/-- The callsign as used by the sort key (claims only concern non-null
callsigns; `render_sort` guards the null/str comparison separately). -/
def csStr (f : SFlight) : String := f.callsign.getD ""

/-- The sort order of `sorted(flights, key=lambda fl: (-fl['score'],
fl['callsign']))`: descending score, ties by ascending callsign. -/
def sortLe (a b : SFlight) : Prop :=
  b.score < a.score ∨ (a.score = b.score ∧ csStr a ≤ csStr b)

instance instDecSortLe : DecidableRel sortLe := fun a b => by
  unfold sortLe
  infer_instance

instance instTotalSortLe : IsTotal SFlight sortLe := by
  constructor
  intro a b
  rcases lt_trichotomy a.score b.score with h | h | h
  · exact Or.inr (Or.inl h)
  · rcases le_total (csStr a) (csStr b) with hc | hc
    · exact Or.inl (Or.inr ⟨h, hc⟩)
    · exact Or.inr (Or.inr ⟨h.symm, hc⟩)
  · exact Or.inl (Or.inl h)

instance instTransSortLe : IsTrans SFlight sortLe := by
  constructor
  intro a b c hab hbc
  rcases hab with hab | ⟨hab, hab2⟩
  · rcases hbc with hbc | ⟨hbc, _⟩
    · exact Or.inl (hbc.trans hab)
    · exact Or.inl (hbc ▸ hab)
  · rcases hbc with hbc | ⟨hbc, hbc2⟩
    · exact Or.inl (hab ▸ hbc)
    · exact Or.inr ⟨hab.trans hbc, hab2.trans hbc2⟩

/-- The sort-key pair `(-score, callsign)`; records with equal keys are the
ones whose relative order stability concerns. -/
def sortKey (f : SFlight) : ℚ × String := (f.score, csStr f)

/-- Two records' sort keys are comparable in Python iff their scores differ
(the callsigns are then never compared) or their callsigns are both strings
or both `None`; comparing `None` with `str` raises `TypeError`. -/
def cmpOk (a b : SFlight) : Prop :=
  a.score ≠ b.score ∨ a.callsign.isSome = b.callsign.isSome

instance instDecCmpOk : ∀ a b, Decidable (cmpOk a b) := fun a b => by
  unfold cmpOk
  infer_instance

/-- The renderer's `sorted(...)` call. Python's sort is stable, and a stable
sort with respect to a total preorder is unique, so it is modelled by the
stable `List.insertionSort`. A record pair whose keys cannot be compared
without a `None`/`str` comparison makes the sort raise `TypeError`. -/
def render_sort (flights : List SFlight) : Except PyErr (List SFlight) :=
  if ∀ a ∈ flights, ∀ b ∈ flights, cmpOk a b then
    .ok (flights.insertionSort sortLe)
  else .error .typeError

/-- Python `int()` truncation toward zero of a float, modelled on `ℚ`. -/
def pyIntTrunc (q : ℚ) : ℤ := q.num.tdiv q.den

/-- One rendered report line. -/
structure RenderLine where
  scoreInt : Int
  dep : Option String
  arr : Option String
  depHour : Int
  depMinute : Int
  callsign : Option String
  registration : PyVal
  typecode : PyVal
  wxDep : PyVal
  wxArr : PyVal
deriving Repr

/-- The body of the render loop for one flight: registration and typecode
default to `?` only when `icao24` is null (hence absent from the aircraft
dict); a present key is subscripted, raising on the `[]` not-found
sentinel. The weather cells default to `?` on a missing metar key. -/
def render_line (aircraft : String → Option PyVal)
    (metar : Option String → Option PyVal) (f : SFlight) :
    Except PyErr RenderLine :=
  match (match f.icao24 with
    | none => Except.ok (PyVal.pyStr "?", PyVal.pyStr "?")
    | some s =>
      match aircraft s with
      | none => Except.ok (PyVal.pyStr "?", PyVal.pyStr "?")
      | some ac =>
        match pyIndex ac "registration" with
        | .error e => .error e
        | .ok r =>
          match pyIndex ac "typecode" with
          | .error e => .error e
          | .ok t => .ok (r, t)) with
  | .error e => .error e
  | .ok (r, t) =>
    .ok { scoreInt := pyIntTrunc f.score
          dep := f.estDepartureAirport
          arr := f.estArrivalAirport
          depHour := (f.firstSeen.fdiv 3600).emod 24
          depMinute := (f.firstSeen.fdiv 60).emod 60
          callsign := f.callsign
          registration := r
          typecode := t
          wxDep := match metar f.estDepartureAirport with
            | some v => v
            | none => .pyStr "?"
          wxArr := match metar f.estArrivalAirport with
            | some v => v
            | none => .pyStr "?" }

/-- Model of `aviationweather_get_metars`: resolve each station code once, building
the metar dict; an uncaught resolver exception aborts. -/
def get_metars (wxSrc : Option String → PyVal) :
    List (Option String) → (Option String → Option PyVal) →
    Except PyErr (Option String → Option PyVal)
  | [], acc => .ok acc
  | k :: rest, acc =>
    match acc k with
    | some _ => get_metars wxSrc rest acc
    | none =>
      match aviationweather_get_metar (wxSrc k) with
      | .error e => .error e
      | .ok v => get_metars wxSrc rest (fun q => if q = k then some v else acc q)

/-! ## Configuration and the pipeline -/

structure FlightTimeConf where
  min : ℚ
  max : ℚ
  penalty_per_min : ℚ
deriving Repr

structure RegistrationConf where
  value : List String
  score_match : ℚ
deriving Repr

/-- The optional filter and rank sections of the configuration; `none`
means the key is absent and the stage is skipped. -/
structure Config where
  filter_icao_region : Option (List String)
  filter_operator : Option (List String)
  filter_aircraft_type : Option (List String)
  rank_flight_time : Option FlightTimeConf
  rank_registration : Option RegistrationConf
  rank_airport : Option (List (String × ℚ))
  rank_weather : Option WeatherConf

/-- The configuration with every optional filter/rank section absent. -/
def emptyConf : Config := ⟨none, none, none, none, none, none, none⟩

/-- The `flightrecommender` pipeline from the fetched list onward:
filters, metadata dict, aircraft-type filter, metar dict, score
initialization to `0.0`, the four optional scoring stages, the final sort
and the render loop. `acSrc`/`wxSrc` give the (memoized) value the
metadata/weather transport returned per key. -/
def flightrecommender (conf : Config) (acSrc : String → PyVal)
    (wxSrc : Option String → PyVal) (fetched : List Flight) :
    Except PyErr (List (SFlight × RenderLine)) :=
  let flights1 := match conf.filter_icao_region with
    | some rs => filter_by_region fetched rs
    | none => fetched
  let flights2 := match conf.filter_operator with
    | some ops => filter_by_operator flights1 ops
    | none => flights1
  let aircraft := get_aircraft_from_flights flights2 acSrc
  match (match conf.filter_aircraft_type with
    | some ts => filter_by_aircraft_type flights2 aircraft ts
    | none => .ok flights2) with
  | .error e => .error e
  | .ok flights3 =>
    match get_metars wxSrc
        (flights3.map (fun f => f.estDepartureAirport) ++
          flights3.map (fun f => f.estArrivalAirport)) (fun _ => none) with
    | .error e => .error e
    | .ok metar =>
      let scored0 := flights3.map
        (fun f => ({ toFlight := f, score := 0 } : SFlight))
      let scored1 := match conf.rank_flight_time with
        | some c => score_by_flight_time scored0 c.min c.max c.penalty_per_min
        | none => scored0
      match (match conf.rank_registration with
        | some c => score_by_registration scored1 aircraft c.value c.score_match
        | none => .ok scored1) with
      | .error e => .error e
      | .ok scored2 =>
        match (match conf.rank_airport with
          | some aps => score_by_airport scored2 aps
          | none => .ok scored2) with
        | .error e => .error e
        | .ok scored3 =>
          match (match conf.rank_weather with
            | some ws => score_by_weather scored3 metar ws
            | none => .ok scored3) with
          | .error e => .error e
          | .ok scored4 =>
            match render_sort scored4 with
            | .error e => .error e
            | .ok sortedFlights =>
              forEachE (fun f =>
                match render_line aircraft metar f with
                | .error e => .error e
                | .ok line => .ok (f, line)) sortedFlights

/-! ## Claim theorems for the scoring engine -/

/-- A 40-minute flight (2400 seconds). -/
def flW : Flight := ⟨none, some "KLM1", some "EHAM", some "EHGG", 0, 2400⟩

/-- C6: with duration `d = lastSeen - firstSeen` in minutes and a sane
configuration (`min ≤ max`), flight-duration scoring subtracts
`penalty_per_min * (min - d)` when `d < min`, subtracts
`penalty_per_min * (d - max)` when `d > max`, and leaves the score
unchanged otherwise; with `min=60, max=180, penalty_per_min=0.5` a
40-minute flight contributes `-10`. -/
theorem c6_flight_time_score (min_time max_time penalty_per_min : ℚ)
    (hminmax : min_time ≤ max_time) (f : SFlight) :
    ((((f.lastSeen - f.firstSeen : ℤ) : ℚ) / 60 < min_time →
      score_by_flight_time [f] min_time max_time penalty_per_min =
        [{ f with score := f.score - penalty_per_min *
            (min_time - ((f.lastSeen - f.firstSeen : ℤ) : ℚ) / 60) }])
    ∧ (max_time < ((f.lastSeen - f.firstSeen : ℤ) : ℚ) / 60 →
      score_by_flight_time [f] min_time max_time penalty_per_min =
        [{ f with score := f.score - penalty_per_min *
            (((f.lastSeen - f.firstSeen : ℤ) : ℚ) / 60 - max_time) }])
    ∧ (min_time ≤ ((f.lastSeen - f.firstSeen : ℤ) : ℚ) / 60 →
      ((f.lastSeen - f.firstSeen : ℤ) : ℚ) / 60 ≤ max_time →
      score_by_flight_time [f] min_time max_time penalty_per_min = [f]))
    ∧ score_by_flight_time [({ toFlight := flW, score := 0 } : SFlight)]
        60 180 (1/2) = [({ toFlight := flW, score := -10 } : SFlight)] := by
  have h60 : (0 : ℚ) < 60 := by norm_num
  constructor
  · refine ⟨?_, ?_, ?_⟩
    · intro h
      rw [div_lt_iff₀ h60] at h
      simp only [score_by_flight_time, List.map_cons, List.map_nil]
      set q : ℚ := ((f.lastSeen - f.firstSeen : ℤ) : ℚ) with hq
      rw [if_pos h, if_neg (show ¬q > max_time * 60 by push_neg; nlinarith)]
      refine congrArg (fun x => [x]) ?_
      simp only [SFlight.mk.injEq, true_and]
      ring
    · intro h
      rw [lt_div_iff₀ h60] at h
      simp only [score_by_flight_time, List.map_cons, List.map_nil]
      set q : ℚ := ((f.lastSeen - f.firstSeen : ℤ) : ℚ) with hq
      rw [if_neg (show ¬q < min_time * 60 by push_neg; nlinarith),
        if_pos (show q > max_time * 60 from h)]
      refine congrArg (fun x => [x]) ?_
      simp only [SFlight.mk.injEq, true_and]
      ring
    · intro h1 h2
      rw [le_div_iff₀ h60] at h1
      rw [div_le_iff₀ h60] at h2
      simp only [score_by_flight_time, List.map_cons, List.map_nil]
      set q : ℚ := ((f.lastSeen - f.firstSeen : ℤ) : ℚ) with hq
      rw [if_neg (show ¬q < min_time * 60 by push_neg; linarith),
        if_neg (show ¬q > max_time * 60 by push_neg; linarith)]
  · simp only [score_by_flight_time, List.map_cons, List.map_nil, flW]
    norm_num [SFlight.mk.injEq]

theorem c6_flight_time_score_witness :
    (60 : ℚ) ≤ 180 ∧
    score_by_flight_time [({ toFlight := flW, score := 0 } : SFlight)]
        60 180 (1/2) = [({ toFlight := flW, score := -10 } : SFlight)] :=
  ⟨by norm_num,
    (c6_flight_time_score 60 180 (1/2) (by norm_num)
      { toFlight := flW, score := 0 }).2⟩

/-- A flight between the two stations of the gust scenario. -/
def flGust : Flight := ⟨none, some "KLM2", some "EHAM", some "EHRD", 0, 0⟩

/-- Weather config with only the gust detector enabled. -/
def gustOnly (mag : ℚ) : WeatherConf :=
  ⟨some mag, none, none, none, none, none, none, none⟩

/-- A report text containing the wind group `" 24015G25KT "`. -/
def gustReport : String := "METAR EHAM 241500Z 24015G25KT 9999"

/-- Metar dict of the gust scenario: the gust report at the departure
station, the empty report at the arrival station. -/
def metarGustW : Option String → Option PyVal := fun k =>
  if k = some "EHAM" then some (.pyStr gustReport)
  else if k = some "EHRD" then some (.pyStr "") else none

lemma score_by_weather_single (f : SFlight)
    (metar : Option String → Option PyVal) (ws : WeatherConf)
    (mdep marr : PyVal) (ddep darr : ℚ)
    (h1 : metar f.estDepartureAirport = some mdep)
    (h2 : metar f.estArrivalAirport = some marr)
    (h3 : weather_delta ws mdep = .ok ddep)
    (h4 : weather_delta ws marr = .ok darr) :
    score_by_weather [f] metar ws =
      .ok [{ f with score := f.score + ddep + darr }] := by
  simp only [score_by_weather, forEachE, h1, h2, h3, h4]

/-- C7: whenever the gust wind-group pattern matches an endpoint report,
the gust detector contributes `magnitude * (gust - wind)`; with
`gust_per_kt = 2` and a report containing `" 24015G25KT "` the flight gains
`2 * (25 - 15) = 20` from that endpoint (the other endpoint's empty report
contributes nothing). -/
theorem c7_gust_score (mag : ℚ) (s : String) (w g : Nat)
    (hs : searchGust s.data = some (w, g)) :
    gustDelta (some mag) s.data = mag * (((g : ℤ) - (w : ℤ) : ℤ) : ℚ)
    ∧ weather_delta (gustOnly mag) (.pyStr s) =
        .ok (gustDelta (some mag) s.data)
    ∧ score_by_weather [({ toFlight := flGust, score := 0 } : SFlight)]
        metarGustW (gustOnly 2) =
        .ok [({ toFlight := flGust, score := 20 } : SFlight)] := by
  refine ⟨?_, ?_, ?_⟩
  · simp only [gustDelta, hs]
  · simp only [weather_delta, gustOnly, visDelta, rvrDelta, ceilDelta,
      phenomDelta, tcuDelta, add_zero]
  · have hg : searchGust gustReport.data = some (15, 25) := by decide
    have h3 : weather_delta (gustOnly 2) (.pyStr gustReport) = .ok 20 := by
      simp only [weather_delta, gustOnly, gustDelta, visDelta, rvrDelta,
        ceilDelta, phenomDelta, tcuDelta, hg, add_zero]
      norm_num
    have h4 : weather_delta (gustOnly 2) (.pyStr "") = .ok 0 := by
      simp only [weather_delta, gustOnly, gustDelta, visDelta, rvrDelta,
        ceilDelta, phenomDelta, tcuDelta, add_zero]
      norm_num [searchGust]
    have hmain := score_by_weather_single
      ({ toFlight := flGust, score := 0 } : SFlight) metarGustW (gustOnly 2)
      (.pyStr gustReport) (.pyStr "") 20 0 rfl rfl h3 h4
    rw [hmain]
    norm_num

theorem c7_gust_score_witness :
    searchGust gustReport.data = some (15, 25)
    ∧ gustDelta (some 2) gustReport.data =
        2 * ((((25 : Nat) : ℤ) - ((15 : Nat) : ℤ) : ℤ) : ℚ) := by
  have hs : searchGust gustReport.data = some (15, 25) := by decide
  exact ⟨hs, (c7_gust_score 2 gustReport 15 25 hs).1⟩

/-! ## Claim theorems for the ranker -/

lemma sortLe_of_key_eq {a b : SFlight} (h : sortKey a = sortKey b) :
    sortLe a b := by
  rw [Prod.ext_iff] at h
  exact Or.inr ⟨h.1, le_of_eq h.2⟩

lemma filter_orderedInsert_key (a : SFlight) (k : ℚ × String) :
    ∀ l : List SFlight,
      (List.orderedInsert sortLe a l).filter (fun x => sortKey x == k) =
        if sortKey a == k then a :: l.filter (fun x => sortKey x == k)
        else l.filter (fun x => sortKey x == k) := by
  intro l
  induction l with
  | nil => simp only [List.orderedInsert, List.filter_cons, List.filter_nil]
  | cons b t ih =>
    by_cases hab : sortLe a b
    · rw [List.orderedInsert, if_pos hab, List.filter_cons]
    · by_cases hk : (sortKey a == k) = true
      · have hbk : (sortKey b == k) = false := by
          rw [Bool.eq_false_iff]
          intro hb
          exact hab (sortLe_of_key_eq (by
            rw [beq_iff_eq] at hk hb
            rw [hk, hb]))
        rw [List.orderedInsert, if_neg hab]
        simp only [List.filter_cons, hbk, Bool.false_eq_true, if_false,
          ih, hk, if_true]
      · have hk2 : (sortKey a == k) = false := Bool.eq_false_iff.mpr hk
        rw [List.orderedInsert, if_neg hab]
        simp only [List.filter_cons, hk2, Bool.false_eq_true, if_false, ih]

lemma insertionSort_filter_key (k : ℚ × String) :
    ∀ l : List SFlight,
      (l.insertionSort sortLe).filter (fun x => sortKey x == k) =
        l.filter (fun x => sortKey x == k) := by
  intro l
  induction l with
  | nil => rfl
  | cons a t ih =>
    simp only [List.insertionSort]
    rw [filter_orderedInsert_key, ih, List.filter_cons]

/-- Two records with equal score and callsigns `DLH123`, `DLH045`. -/
def dlh123 : SFlight := ⟨⟨none, some "DLH123", none, none, 0, 0⟩, 0⟩

def dlh045 : SFlight := ⟨⟨none, some "DLH045", none, none, 0, 0⟩, 0⟩

lemma dlh_pair_cmpOk : ∀ a ∈ [dlh123, dlh045], ∀ b ∈ [dlh123, dlh045],
    cmpOk a b := by
  intro a ha b hb
  fin_cases ha <;> fin_cases hb <;> exact Or.inr rfl

/-- C8: on any list whose sort keys are pairwise comparable, the renderer's
sort is the stable sort by descending score with ties broken by ascending
callsign: the output is a permutation of the input, consecutive elements
satisfy the descending-score/ascending-callsign order, the subsequence of
records sharing any fixed sort key is preserved (stability), and two
records with equal scores and callsigns `DLH123`/`DLH045` come out with
`DLH045` first. -/
theorem c8_render_sort (l : List SFlight)
    (h : ∀ a ∈ l, ∀ b ∈ l, cmpOk a b) :
    render_sort l = .ok (l.insertionSort sortLe)
    ∧ List.Sorted sortLe (l.insertionSort sortLe)
    ∧ (l.insertionSort sortLe).Perm l
    ∧ (∀ k : ℚ × String,
        (l.insertionSort sortLe).filter (fun x => sortKey x == k) =
          l.filter (fun x => sortKey x == k))
    ∧ render_sort [dlh123, dlh045] = .ok [dlh045, dlh123] := by
  refine ⟨?_, List.sorted_insertionSort sortLe l,
    List.perm_insertionSort sortLe l,
    fun k => insertionSort_filter_key k l, ?_⟩
  · unfold render_sort
    rw [if_pos h]
  · have h1 : ¬ sortLe dlh123 dlh045 := by
      simp [sortLe, csStr, dlh123, dlh045]
      decide
    unfold render_sort
    rw [if_pos dlh_pair_cmpOk]
    simp only [List.insertionSort, List.orderedInsert]
    rw [if_neg h1]

theorem c8_render_sort_witness :
    (∀ a ∈ [dlh123, dlh045], ∀ b ∈ [dlh123, dlh045], cmpOk a b)
    ∧ render_sort [dlh123, dlh045] =
        .ok ([dlh123, dlh045].insertionSort sortLe) :=
  ⟨dlh_pair_cmpOk, (c8_render_sort [dlh123, dlh045] dlh_pair_cmpOk).1⟩

/-! ## Claim theorems for the pipeline -/

/-- A well-formed weather response document. -/
def wxDocGood : PyVal :=
  .pyDict [("response", .pyDict [("data", .pyDict [("METAR",
    .pyDict [("raw_text", .pyStr "EHAM 241500Z 24010KT CAVOK")])])])]

/-- A flight with a null departure airport (possible with the region filter
disabled). -/
def flNullDep : Flight := ⟨none, some "ABC123", none, some "EDDF", 0, 0⟩

/-- Configuration enabling only airport scoring. -/
def confAirport : Config := { emptyConf with rank_airport := some [("EDD", 5)] }

/-- C9: with airport scoring enabled and the region filter absent, a
surviving flight whose departure airport is null makes the scoring stage
raise — the pipeline aborts with `AttributeError` from
`f['estDepartureAirport'].startswith` in `score_by_airport`; and
`score_by_weather` indexes the metar mapping with the null code unguarded,
raising `KeyError` whenever the mapping lacks that key. -/
theorem c9_null_airport_scoring_raises :
    flightrecommender confAirport (fun _ => .pyList [])
      (fun _ => wxDocGood) [flNullDep] = .error .attributeError
    ∧ score_by_weather [({ toFlight := flNullDep, score := 0 } : SFlight)]
        (fun _ => none) (gustOnly 2) = .error .keyError :=
  ⟨rfl, rfl⟩

/-- A flight whose `icao24` has no resolvable metadata. -/
def flUnknown : Flight :=
  ⟨some "abc123", some "KLM3", some "EHAM", some "EHGG", 0, 0⟩

/-- The metadata source answering not-found for every aircraft:
`request_json` returns `[]` on a 404. -/
def acSrcNotFound : String → PyVal := fun _ => .pyList []

/-- The aircraft dict after resolving `flUnknown`: the `[]` sentinel is
stored under its `icao24`. -/
def acUnknown : String → Option PyVal :=
  get_aircraft_from_flights [flUnknown] acSrcNotFound

/-- Configuration enabling only registration scoring. -/
def confReg : Config :=
  { emptyConf with rank_registration := some ⟨["PHABC"], 10⟩ }

/-- C1: for a flight whose `icao24` resolves to not-found, the aircraft-type
filter does drop the record (`'typecode' in []` is false), but the `[]`
sentinel is stored in the aircraft dict, so the `not in aircraft` guards
never fire: registration scoring evaluates `[]['registration']` and raises
`TypeError` instead of contributing 0, the renderer raises the same way
instead of printing `?`, and the run aborts. -/
theorem c1_unknown_metadata_raises :
    filter_by_aircraft_type [flUnknown] acUnknown ["A320"] = .ok []
    ∧ score_by_registration [({ toFlight := flUnknown, score := 0 } : SFlight)]
        acUnknown ["PHABC"] 10 = .error .typeError
    ∧ render_line acUnknown (fun _ => some (.pyStr ""))
        ({ toFlight := flUnknown, score := 0 } : SFlight) = .error .typeError
    ∧ flightrecommender confReg acSrcNotFound (fun _ => wxDocGood)
        [flUnknown] = .error .typeError :=
  ⟨rfl, rfl, rfl, rfl⟩

/-- A fetched record with a null callsign and one with a string callsign. -/
def flNoCallsign : Flight := ⟨none, none, none, none, 0, 0⟩

def flWithCallsign : Flight := ⟨none, some "ABC", none, none, 0, 0⟩

/-- C3 counterexample: with every optional filter/rank section absent the
pipeline does not always output the fetched set — it aborts with
`TypeError` when (a) some flight's metadata is unresolvable (the renderer
subscripts the `[]` sentinel), (b) a null and a non-null callsign tie at
score 0 in the sort, or (c) the weather source answers not-found for a
station. -/
theorem c3_no_config_counterexample :
    flightrecommender emptyConf acSrcNotFound (fun _ => wxDocGood)
      [flUnknown] = .error .typeError
    ∧ flightrecommender emptyConf (fun _ => wxDocGood) (fun _ => wxDocGood)
        [flNoCallsign, flWithCallsign] = .error .typeError
    ∧ flightrecommender emptyConf (fun _ => wxDocGood) (fun _ => .pyList [])
        [flWithCallsign] = .error .typeError :=
  ⟨rfl, rfl, rfl⟩

lemma get_metars_ok (wxSrc : Option String → PyVal)
    (hwx : ∀ k, ∃ v, aviationweather_get_metar (wxSrc k) = .ok v) :
    ∀ (icaos : List (Option String)) (acc : Option String → Option PyVal),
      ∃ m, get_metars wxSrc icaos acc = .ok m := by
  intro icaos
  induction icaos with
  | nil => intro acc; exact ⟨acc, rfl⟩
  | cons k rest ih =>
    intro acc
    simp only [get_metars]
    cases hk : acc k with
    | some v => exact ih acc
    | none =>
      obtain ⟨v, hv⟩ := hwx k
      rw [hv]
      exact ih _

lemma forEachE_ok_exists (g : SFlight → Except PyErr (SFlight × RenderLine))
    (hg2 : ∀ x y, g x = .ok y → y.1 = x) :
    ∀ l, (∀ x ∈ l, ∃ y, g x = .ok y) →
      ∃ ys, forEachE g l = .ok ys ∧ ys.map Prod.fst = l := by
  intro l
  induction l with
  | nil => intro _; exact ⟨[], rfl, rfl⟩
  | cons x xs ih =>
    intro hall
    obtain ⟨y, hy⟩ := hall x (List.mem_cons_self x xs)
    obtain ⟨ys, hys, hm⟩ := ih (fun z hz => hall z (List.mem_cons_of_mem x hz))
    refine ⟨y :: ys, ?_, ?_⟩
    · simp only [forEachE, hy, hys]
    · simp only [List.map_cons, hm, hg2 x y hy]

lemma get_aircraft_some (flights : List Flight) (acSrc : String → PyVal)
    (s : String) (ac : PyVal)
    (h : get_aircraft_from_flights flights acSrc s = some ac) :
    ac = acSrc s := by
  unfold get_aircraft_from_flights at h
  split at h
  · exact (Option.some.injEq _ _ ▸ h).symm
  · exact absurd h (by simp)

lemma render_line_ok (aircraft : String → Option PyVal)
    (metar : Option String → Option PyVal) (f : SFlight)
    (h : ∀ s, f.icao24 = some s → ∀ ac, aircraft s = some ac →
      (∃ v, pyIndex ac "registration" = .ok v) ∧
      (∃ v, pyIndex ac "typecode" = .ok v)) :
    ∃ line, render_line aircraft metar f = .ok line := by
  unfold render_line
  cases hi : f.icao24 with
  | none =>
    simp only []
    exact ⟨_, rfl⟩
  | some s =>
    cases ha : aircraft s with
    | none =>
      simp only [ha]
      exact ⟨_, rfl⟩
    | some ac =>
      obtain ⟨⟨r, hr⟩, t, ht⟩ := h s hi ac ha
      simp only [ha, hr, ht]
      exact ⟨_, rfl⟩

/-- C3 (amended): for every fetched flight list and the configuration with
all optional filter and rank sections absent — provided every record's
callsign is non-null, every metadata response carries `registration` and
`typecode` fields, and every weather lookup resolves without error (the
counterexample shows each proviso is necessary) — the pipeline outputs
exactly the full fetched set, every record scored 0, sorted by callsign
ascending only. -/
theorem c3_no_config_output (fetched : List Flight)
    (acSrc : String → PyVal) (wxSrc : Option String → PyVal)
    (hcs : ∀ f ∈ fetched, f.callsign.isSome = true)
    (hac : ∀ s : String, (∃ v, pyIndex (acSrc s) "registration" = .ok v) ∧
      (∃ v, pyIndex (acSrc s) "typecode" = .ok v))
    (hwx : ∀ k, ∃ v, aviationweather_get_metar (wxSrc k) = .ok v) :
    ∃ out, flightrecommender emptyConf acSrc wxSrc fetched = .ok out
      ∧ (out.map (fun p => p.1.toFlight)).Perm fetched
      ∧ (∀ p ∈ out, p.1.score = 0)
      ∧ out.Pairwise (fun p q => csStr p.1 ≤ csStr q.1) := by
  obtain ⟨metar, hmetar⟩ := get_metars_ok wxSrc hwx
    (fetched.map (fun f => f.estDepartureAirport) ++
      fetched.map (fun f => f.estArrivalAirport)) (fun _ => none)
  have hmem0 : ∀ a ∈ fetched.map
      (fun f => ({ toFlight := f, score := 0 } : SFlight)),
      ∃ f ∈ fetched, a = ({ toFlight := f, score := 0 } : SFlight) := by
    intro a ha
    obtain ⟨f, hf, hfa⟩ := List.mem_map.mp ha
    exact ⟨f, hf, hfa.symm⟩
  have hcomp : ∀ a ∈ fetched.map
      (fun f => ({ toFlight := f, score := 0 } : SFlight)),
      ∀ b ∈ fetched.map
        (fun f => ({ toFlight := f, score := 0 } : SFlight)), cmpOk a b := by
    intro a ha b hb
    obtain ⟨f, hf, rfl⟩ := hmem0 a ha
    obtain ⟨g, hg, rfl⟩ := hmem0 b hb
    exact Or.inr ((hcs f hf).trans (hcs g hg).symm)
  have hrs : render_sort (fetched.map
      (fun f => ({ toFlight := f, score := 0 } : SFlight))) =
      .ok ((fetched.map
        (fun f => ({ toFlight := f, score := 0 } : SFlight))).insertionSort
          sortLe) := by
    unfold render_sort
    rw [if_pos hcomp]
  have hsortmem : ∀ a ∈ (fetched.map
      (fun f => ({ toFlight := f, score := 0 } : SFlight))).insertionSort
        sortLe,
      ∃ f ∈ fetched, a = ({ toFlight := f, score := 0 } : SFlight) := by
    intro a ha
    exact hmem0 a ((List.perm_insertionSort sortLe _).subset ha)
  have hrl : ∀ x ∈ (fetched.map
      (fun f => ({ toFlight := f, score := 0 } : SFlight))).insertionSort
        sortLe,
      ∃ line, render_line (get_aircraft_from_flights fetched acSrc) metar x
        = .ok line := by
    intro x _
    apply render_line_ok
    intro s _ ac ha
    rw [get_aircraft_some fetched acSrc s ac ha]
    exact hac s
  obtain ⟨ys, hys, hmap⟩ := forEachE_ok_exists
    (fun x =>
      match render_line (get_aircraft_from_flights fetched acSrc) metar x with
      | .error e => .error e
      | .ok line => .ok (x, line))
    (by
      intro x y hxy
      cases hr : render_line (get_aircraft_from_flights fetched acSrc)
          metar x with
      | error e =>
        simp only [hr] at hxy
        exact Except.noConfusion hxy
      | ok line =>
        simp only [hr, Except.ok.injEq] at hxy
        rw [← hxy])
    ((fetched.map
      (fun f => ({ toFlight := f, score := 0 } : SFlight))).insertionSort
        sortLe)
    (fun x hx => by
      obtain ⟨line, hl⟩ := hrl x hx
      exact ⟨(x, line), by simp only [hl]⟩)
  refine ⟨ys, ?_, ?_, ?_, ?_⟩
  · simp only [flightrecommender, emptyConf]
    rw [hmetar]
    simp only []
    rw [hrs]
    simp only []
    exact hys
  · have h1 : ys.map (fun p => p.1.toFlight) =
        (ys.map Prod.fst).map (fun a => a.toFlight) := by
      rw [List.map_map]
      rfl
    rw [h1, hmap]
    have h2 := (List.perm_insertionSort sortLe (fetched.map
      (fun f => ({ toFlight := f, score := 0 } : SFlight)))).map
      (fun a : SFlight => a.toFlight)
    refine h2.trans ?_
    rw [List.map_map,
      show ((fun a : SFlight => a.toFlight) ∘
        fun f : Flight => ({ toFlight := f, score := 0 } : SFlight)) = id
        from rfl,
      List.map_id]
  · intro p hp
    have hp1 : p.1 ∈ (fetched.map
        (fun f => ({ toFlight := f, score := 0 } : SFlight))).insertionSort
          sortLe := by
      rw [← hmap]
      exact List.mem_map_of_mem Prod.fst hp
    obtain ⟨f, _, hpf⟩ := hsortmem p.1 hp1
    rw [hpf]
  · have hsorted : List.Sorted sortLe ((fetched.map
        (fun f => ({ toFlight := f, score := 0 } : SFlight))).insertionSort
          sortLe) :=
      List.sorted_insertionSort sortLe _
    have hPair : ((fetched.map
        (fun f => ({ toFlight := f, score := 0 } : SFlight))).insertionSort
          sortLe).Pairwise (fun a b => csStr a ≤ csStr b) := by
      refine List.Pairwise.imp_of_mem ?_ hsorted
      intro a b ha hb hab
      obtain ⟨f, _, rfl⟩ := hsortmem a ha
      obtain ⟨g, _, rfl⟩ := hsortmem b hb
      rcases hab with h1 | ⟨_, h3⟩
      · exact absurd h1 (lt_irrefl 0)
      · exact h3
    rw [← hmap] at hPair
    exact (@List.pairwise_map _ _ Prod.fst
      (fun a b => csStr a ≤ csStr b) ys).mp hPair

/-- A well-formed metadata record. -/
def acDocGood : PyVal :=
  .pyDict [("registration", .pyStr "PH-ABC"), ("typecode", .pyStr "A320")]

theorem c3_no_config_output_witness :
    (∀ f ∈ [flWithCallsign], f.callsign.isSome = true) ∧
    ∃ out, flightrecommender emptyConf (fun _ => acDocGood)
        (fun _ => wxDocGood) [flWithCallsign] = .ok out
      ∧ (out.map (fun p => p.1.toFlight)).Perm [flWithCallsign]
      ∧ (∀ p ∈ out, p.1.score = 0)
      ∧ out.Pairwise (fun p q => csStr p.1 ≤ csStr q.1) :=
  ⟨by decide,
    c3_no_config_output [flWithCallsign] (fun _ => acDocGood)
      (fun _ => wxDocGood) (by decide)
      (fun _ => ⟨⟨_, rfl⟩, _, rfl⟩) (fun _ => ⟨_, rfl⟩)⟩
